import Mathlib

/-!
Shallow embedding of the emotionsense_be face-emotion inference pipeline.

The embedded code:
* `app/utils/emotion_detection.py` — `detect_emotion` (module-level
  `emotion_classifier` load, two-tier Haar-cascade detection, center
  fallback region, size sort, arg-max classification);
* `app/api/routes/emotions_detection.py` — `detect_emotions_in_image`
  (HTTP mapping of `detect_emotion` results, best-effort user-history
  write);
* `app/services/user_service.py` — `UserService.update_emotion`;
* `app/models/user.py` — `Emotion`, `EmotionHistoryEntry`, `User`.

External collaborators (the OpenCV cascade detector and the Keras
classifier) are black boxes in the source; they appear here as function
parameters.  Pixel contents are irrelevant to every claim, so a decoded
grayscale frame is modelled by its dimensions.  Floating point values
(probabilities, confidences) are modelled as rationals: the pipeline only
selects and compares them, it performs no float arithmetic on them.
-/

namespace EmotionSense

/-- Probability vector as returned by `emotion_classifier.predict(roi)[0]`. -/
abbrev Preds := List ℚ

/-- `EMOTIONS = ["angry", "disgust", "scared", "happy", "sad", "surprised", "neutral"]`
(`app/utils/emotion_detection.py`, line 16). -/
def EMOTIONS : List String :=
  ["angry", "disgust", "scared", "happy", "sad", "surprised", "neutral"]

/-- A face bounding box `(x, y, w, h)` as produced by
`cv2.CascadeClassifier.detectMultiScale` (non-negative integers). -/
structure FaceRegion where
  x : Nat
  y : Nat
  w : Nat
  h : Nat
deriving DecidableEq, Repr

/-- A decoded grayscale frame, abstracted to its shape `gray.shape = (h, w)`. -/
structure Frame where
  w : Nat
  h : Nat
deriving DecidableEq, Repr

/-- Bounding-box area `width * height` (the quantity the spec's Region
Selector is required to maximize). -/
def area (r : FaceRegion) : Nat := r.w * r.h

/-- The actual sort key of the source,
`key=lambda x: (x[2] - x[0]) * (x[3] - x[1])` applied to an `(x, y, w, h)`
tuple, i.e. `(w - x) * (h - y)` over the integers
(`app/utils/emotion_detection.py`, line 101). -/
def sortKey (r : FaceRegion) : Int :=
  ((r.w : Int) - (r.x : Int)) * ((r.h : Int) - (r.y : Int))

/-- Stable insertion of a region into a key-descending list: `r` goes in
front of the first element whose key is not larger, so an element earlier
in detector order precedes later elements of equal key. -/
def insertDesc (r : FaceRegion) : List FaceRegion → List FaceRegion
  | [] => [r]
  | s :: rest =>
      if sortKey s ≤ sortKey r then r :: s :: rest
      else s :: insertDesc r rest

/-- `sorted(faces, reverse=True, key=...)` — Python's `sorted` is a stable
sort; modelled by stable insertion sort in descending key order. -/
def sortFacesDesc : List FaceRegion → List FaceRegion
  | [] => []
  | r :: rest => insertDesc r (sortFacesDesc rest)

/-- `np.max` over a non-empty vector (`float(np.max(preds))`); junk value
`0` on the empty vector, which the real classifier never returns. -/
def listMax : List ℚ → ℚ
  | [] => 0
  | [p] => p
  | p :: q :: rest => max p (listMax (q :: rest))

/-- `np.argmax`: index of the first occurrence of the maximum. -/
def argmaxIdx : List ℚ → Nat
  | [] => 0
  | [_] => 0
  | p :: q :: rest =>
      if listMax (q :: rest) ≤ p then 0 else argmaxIdx (q :: rest) + 1

/-- The center fallback region synthesized when both detection tiers come
back empty: `(w // 4, h // 4, w // 2, h // 2)`
(`app/utils/emotion_detection.py`, lines 85–92). -/
def fallbackRegion (w h : Nat) : FaceRegion :=
  { x := w / 4, y := h / 4, w := w / 2, h := h / 2 }

/-- One entry of the `results` list built by `detect_emotion`. -/
structure FaceResult where
  face_location : FaceRegion
  emotion : String
  confidence : ℚ
  emotion_probabilities : List (String × ℚ)
deriving DecidableEq, Repr

/-- Return value of `detect_emotion`: either `{"error": msg}` or
`{"faces": results, "message": msg}`. -/
inductive DetectOutcome where
  | error (msg : String)
  | faces (results : List FaceResult) (message : String)
deriving DecidableEq, Repr

/-- Instrumentation of one `detect_emotion` call, for the spec's
call-count observations: whether the relaxed tier ran, whether the
classifier was invoked, and the region list handed downstream. -/
structure DetectTrace where
  relaxedRan : Bool
  classifyRan : Bool
  usedRegions : List FaceRegion
deriving DecidableEq, Repr

/-- `emotion_probs`: `{emotion: float(preds[i]) for i, emotion in
enumerate(EMOTIONS)}`; requires `preds` to have at least
`EMOTIONS.length` entries (otherwise Python raises `IndexError`). -/
def emotionProbs (preds : Preds) : List (String × ℚ) :=
  (List.range EMOTIONS.length).map
    (fun i => (EMOTIONS.getD i "", preds.getD i 0))

/-- Lines 98–101: `if len(faces) > 1: faces = sorted(faces, reverse=True,
key=...)` — the list `faces[0]` is then taken from. -/
def selectedFaces (faces : List FaceRegion) : List FaceRegion :=
  if faces.length > 1 then sortFacesDesc faces else faces

/-- Lines 94–150 of `detect_emotion`: given the region list `faces`
handed downstream by the tier logic, sort it by the source's key when
there is more than one region, take `faces[0]`, run the classifier on
the cropped region, and package the single-face result.  `relaxedRan`
only feeds the instrumentation trace. -/
def classifyFaces (predict : FaceRegion → Preds) (faces : List FaceRegion)
    (relaxedRan : Bool) : DetectOutcome × DetectTrace :=
  if faces.length > 0 then
    match (selectedFaces faces).head? with
    | none =>
        (.error "Failed to process image: list index out of range",
         ⟨relaxedRan, false, faces⟩)
    | some f =>
      let preds := predict f
      let emotion_probability := listMax preds
      let emotion_index := argmaxIdx preds
      match EMOTIONS.get? emotion_index with
      | none =>
          (.error "Failed to process image: list index out of range",
           ⟨relaxedRan, true, faces⟩)
      | some emotion_label =>
        if preds.length < EMOTIONS.length then
          (.error "Failed to process image: index out of bounds",
           ⟨relaxedRan, true, faces⟩)
        else
          (.faces
            [{ face_location := f
               emotion := emotion_label
               confidence := emotion_probability
               emotion_probabilities := emotionProbs preds }]
            "1 face(s) detected",
           ⟨relaxedRan, true, faces⟩)
  else
    (.faces [] "No faces detected in the image",
     ⟨relaxedRan, false, faces⟩)

/-- `detect_emotion(image_bytes)` (`app/utils/emotion_detection.py`,
lines 36–153), instrumented.

* `emotion_classifier` — the module-level classifier, `none` when
  `load_model` failed at import time;
* `decoded` — the result of `cv2.imdecode` followed by
  `imutils.resize(width=300)`: `none` models `frame is None`;
* `strict` / `relaxed` — the two `detectMultiScale` tiers
  (scaleFactor 1.1 / 1.05, minNeighbors 5 / 3, minSize 30 / 20) as
  black-box functions of the grayscale frame;
* the classifier maps the cropped ROI — determined by the selected
  region — to a probability vector.

Any exception inside the `try` block is caught and surfaced as
`{"error": "Failed to process image: ..."}`; the reachable exception
sources (`preds` too short for the `EMOTIONS` enumeration, arg-max index
outside `EMOTIONS`) are modelled explicitly in `classifyFaces`. -/
def detect_emotion (emotion_classifier : Option (FaceRegion → Preds))
    (decoded : Option Frame) (strict relaxed : Frame → List FaceRegion) :
    DetectOutcome × DetectTrace :=
  match emotion_classifier with
  | none => (.error "Emotion detection model not loaded", ⟨false, false, []⟩)
  | some predict =>
    match decoded with
    | none => (.error "Failed to decode image", ⟨false, false, []⟩)
    | some gray =>
      let strictFaces := strict gray
      if strictFaces.length = 0 then
        let relaxedFaces := relaxed gray
        if relaxedFaces.length = 0 then
          classifyFaces predict [fallbackRegion gray.w gray.h] true
        else
          classifyFaces predict relaxedFaces true
      else
        classifyFaces predict strictFaces false

/-! ### User model and history storage (`app/models/user.py`,
`app/services/user_service.py`, `app/database`) -/

/-- `class Emotion(int, Enum)` — the account subsystem's emotion
enumeration (`app/models/user.py`, lines 5–10). -/
inductive UserEmotion where
  | HAPPY
  | SAD
  | ANGRY
  | SURPRISED
  | NEUTRAL
deriving DecidableEq, Repr

/-- The `int` value of each `Emotion` member. -/
def UserEmotion.value : UserEmotion → Nat
  | .HAPPY => 0
  | .SAD => 1
  | .ANGRY => 2
  | .SURPRISED => 3
  | .NEUTRAL => 4

/-- Python's `str.upper()`, restricted to its ASCII behaviour — the
emotion labels it is applied to are all ASCII. -/
def pyUpper (s : String) : String := String.mk (s.data.map Char.toUpper)

/-- `getattr(UserEmotion, emotion_name.upper(), None)`
(`app/api/routes/emotions_detection.py`, line 117): name lookup on the
upper-cased label, `None` when the enum has no such member (the
classifier labels `disgust`, `scared` and the sentinel `no_face` are
unmapped). -/
def emotionEnumLookup (name : String) : Option UserEmotion :=
  if pyUpper name = "HAPPY" then some .HAPPY
  else if pyUpper name = "SAD" then some .SAD
  else if pyUpper name = "ANGRY" then some .ANGRY
  else if pyUpper name = "SURPRISED" then some .SURPRISED
  else if pyUpper name = "NEUTRAL" then some .NEUTRAL
  else none

/-- Python truthiness of the `Optional[Emotion]` guard `if emotion_enum:`
— `None` is falsy, and so is the `int`-valued enum member with value `0`
(`Emotion.HAPPY`). -/
def emotionTruthy : Option UserEmotion → Bool
  | none => false
  | some e => e.value ≠ 0

/-- One element of a stored `emotionHistory` list:
`EmotionHistoryEntry.to_dict()` yields `{timestamp, emotion}` — there is
no confidence field (`app/models/user.py`, lines 16–25).  Timestamps are
abstracted to naturals. -/
structure HistEntry where
  timestamp : Nat
  emotion : Nat
deriving DecidableEq, Repr

/-- A stored user document, restricted to the fields `update_emotion`
touches. -/
structure UserDoc where
  currentEmotion : Nat
  updatedAt : Nat
  emotionHistory : List HistEntry
deriving DecidableEq, Repr

/-- The users collection, keyed by the string id that
`ObjectId(user_id)` is built from. -/
abbrev Store := List (String × UserDoc)

/-- Replace the document stored under `uid`. -/
def storeSet (store : Store) (uid : String) (doc : UserDoc) : Store :=
  store.map (fun p => if p.1 = uid then (uid, doc) else p)

/-- `UserService.update_emotion(user_id, emotion)`
(`app/services/user_service.py`, lines 76–107): look the user up, append
one `{timestamp, emotion}` entry via `$push`, set `currentEmotion` and
`updatedAt` via `$set`, and report `modified_count > 0`; a missing user
(or any exception, caught inside the method) yields `False` with the
store unchanged.  `now` is the call's `datetime.utcnow()`. -/
def update_emotion (store : Store) (user_id : String) (emotion : UserEmotion)
    (now : Nat) : Store × Bool :=
  match store.lookup user_id with
  | none => (store, false)
  | some doc =>
      (storeSet store user_id
        { currentEmotion := emotion.value
          updatedAt := now
          emotionHistory := doc.emotionHistory ++ [⟨now, emotion.value⟩] },
       true)

/-- Number of parameters of `UserService.update_emotion`:
`(user_id, emotion)` (`app/services/user_service.py`, line 77). -/
def update_emotion_paramCount : Nat := 2

/-- The route's invocation
`UserService.update_emotion(received_user_id, emotion_enum, face["confidence"])`
(`app/api/routes/emotions_detection.py`, line 120) passes three
positional arguments; Python raises `TypeError` at the call when the
argument count does not match the signature, so the confidence argument
never reaches the method. -/
def call_update_emotion_3args (store : Store) (user_id : String)
    (emotion : UserEmotion) (confidence : ℚ) (now : Nat) :
    Except String (Store × Bool) :=
  if 3 = update_emotion_paramCount then
    .ok (update_emotion store user_id emotion now)
  else
    .error ("update_emotion() takes 2 positional arguments but 3 were given"
            ++ toString confidence)

/-! ### The `/detect` route (`app/api/routes/emotions_detection.py`,
`detect_emotions_in_image`, lines 26–159), modelled from the point where
`image_bytes` has been obtained. -/

/-- HTTP-level outcome of the route: an `HTTPException` or the 200
`JSONResponse` payload (`status`, `message`, `data.emotion`,
`data.confidence`, `data.user_updated`; the ISO timestamp string is
real-time data and is not modelled). -/
inductive ApiResponse where
  | httpError (statusCode : Nat) (detail : String)
  | ok (message : String) (emotion : String) (confidence : ℚ)
      (user_updated : Bool)
deriving DecidableEq, Repr

/-- `400 ≤ code < 500`: the HTTP client-error class. -/
def isClientError (code : Nat) : Prop := 400 ≤ code ∧ code < 500

instance (code : Nat) : Decidable (isClientError code) := by
  unfold isClientError; infer_instance

/-- The best-effort history-write block of the route
(`app/api/routes/emotions_detection.py`, lines 110–124): resolve the
enum member by name, guard it with Python truthiness, call
`update_emotion` with three arguments inside `try`, and on any exception
log and keep `user_updated = False`. -/
def routeHistoryWrite (store : Store) (user_id : Option String)
    (emotion_name : String) (confidence : ℚ) (now : Nat) : Store × Bool :=
  match user_id with
  | none => (store, false)
  | some uid =>
      let emotion_enum := emotionEnumLookup emotion_name
      if emotionTruthy emotion_enum then
        match emotion_enum with
        | none => (store, false)
        | some e =>
            match call_update_emotion_3args store uid e confidence now with
            | .ok (st, success) => (st, success)
            | .error _ => (store, false)
      else (store, false)

/-- `detect_emotions_in_image`, from `detect_emotion(image_bytes)`
onward: an `"error"` result becomes an HTTP 500; a non-empty `"faces"`
list yields the 200 success payload built from the first face (after the
best-effort history write); an empty list yields the 200 `no_face`
payload. -/
def detect_emotions_in_image (emotion_classifier : Option (FaceRegion → Preds))
    (decoded : Option Frame) (strict relaxed : Frame → List FaceRegion)
    (user_id : Option String) (store : Store) (now : Nat) :
    ApiResponse × Store :=
  let result := (detect_emotion emotion_classifier decoded strict relaxed).1
  match result with
  | .error msg => (.httpError 500 msg, store)
  | .faces results _ =>
      match results with
      | [] =>
          (.ok "No face detected in the image" "no_face" 0 false, store)
      | face :: _ =>
          let (storeAfter, user_updated) :=
            routeHistoryWrite store user_id face.emotion face.confidence now
          (.ok "Emotion detected successfully" face.emotion face.confidence
            user_updated,
           storeAfter)

/-! ### Process lifecycle (`app/utils/emotion_detection.py`, lines 29–34)

The classifier is loaded once, at module import; `detect_emotion` only
reads the module global and never re-assigns it, so the loaded-or-not
state is fixed for the life of the process. -/

/-- Process-wide state: the module global `emotion_classifier`
(`None` when `load_model` raised at import time). -/
structure ProcState where
  emotion_classifier : Option (FaceRegion → Preds)

/-- The per-call inputs of one inference request. -/
structure CallInput where
  decoded : Option Frame
  strict : Frame → List FaceRegion
  relaxed : Frame → List FaceRegion
  user_id : Option String
  store : Store
  now : Nat

/-- One `/detect` request against the process state; the state is read,
never written. -/
def routeCall (st : ProcState) (inp : CallInput) : ApiResponse × ProcState :=
  ((detect_emotions_in_image st.emotion_classifier inp.decoded inp.strict
      inp.relaxed inp.user_id inp.store inp.now).1,
   st)

/-- A whole sequence of requests served by one process. -/
def runRoute (st : ProcState) : List CallInput → List ApiResponse × ProcState
  | [] => ([], st)
  | inp :: rest =>
      let (resp, st1) := routeCall st inp
      let (resps, st2) := runRoute st1 rest
      (resp :: resps, st2)

/-- A concrete classifier vector, certain on `happy`; witness data. -/
def predsHappy : Preds := [0, 0, 0, 1, 0, 0, 0]

/-- The face result the pipeline builds for `predsHappy` on region
`(0, 0, 10, 10)`; witness data. -/
def witFace : FaceResult :=
  { face_location := ⟨0, 0, 10, 10⟩, emotion := "happy", confidence := 1,
    emotion_probabilities := emotionProbs predsHappy }

/-- Witness data: one request carrying no decodable image. -/
def witInput : CallInput := ⟨none, fun _ => [], fun _ => [], none, [], 0⟩

/-- Witness data: the process state after a failed classifier load. -/
def procNoClassifier : ProcState := ⟨none⟩

/-! ### Lemmas about `listMax` and `argmaxIdx` -/

theorem listMax_cons_cons (p q : ℚ) (rest : List ℚ) :
    listMax (p :: q :: rest) = max p (listMax (q :: rest)) := rfl

theorem argmaxIdx_cons_cons (p q : ℚ) (rest : List ℚ) :
    argmaxIdx (p :: q :: rest) =
      if listMax (q :: rest) ≤ p then 0 else argmaxIdx (q :: rest) + 1 := rfl

/-- The maximum of a non-empty vector is one of its components. -/
theorem listMax_mem : ∀ (l : List ℚ), l ≠ [] → listMax l ∈ l
  | [], hne => absurd rfl hne
  | [p], _ => by simp [listMax]
  | p :: q :: rest, _ => by
      rw [listMax_cons_cons]
      rcases le_total p (listMax (q :: rest)) with hle | hle
      · rw [max_eq_right hle]
        exact List.mem_cons_of_mem _ (listMax_mem (q :: rest) (by simp))
      · rw [max_eq_left hle]
        exact List.mem_cons_self _ _

/-- Every component is bounded by the maximum. -/
theorem le_listMax : ∀ (l : List ℚ) (x : ℚ), x ∈ l → x ≤ listMax l
  | [], x, hx => absurd hx (List.not_mem_nil x)
  | [p], x, hx => by
      rw [List.mem_singleton] at hx
      simp [listMax, hx]
  | p :: q :: rest, x, hx => by
      rw [listMax_cons_cons]
      rcases List.mem_cons.mp hx with rfl | hx
      · exact le_max_left _ _
      · exact le_trans (le_listMax (q :: rest) x hx) (le_max_right _ _)

/-- The arg-max index is a valid index of a non-empty vector. -/
theorem argmaxIdx_lt : ∀ (l : List ℚ), l ≠ [] → argmaxIdx l < l.length
  | [], hne => absurd rfl hne
  | [_], _ => by simp [argmaxIdx]
  | p :: q :: rest, _ => by
      rw [argmaxIdx_cons_cons]
      by_cases hc : listMax (q :: rest) ≤ p
      · simp [hc]
      · simp only [hc, if_false, List.length_cons]
        have := argmaxIdx_lt (q :: rest) (by simp)
        rw [List.length_cons] at this
        omega

/-- The component at the arg-max index is the maximum: `np.argmax` points
at (the first occurrence of) `np.max`. -/
theorem getD_argmaxIdx : ∀ (l : List ℚ), l ≠ [] → l.getD (argmaxIdx l) 0 = listMax l
  | [], hne => absurd rfl hne
  | [p], _ => by simp [argmaxIdx, listMax]
  | p :: q :: rest, _ => by
      rw [argmaxIdx_cons_cons, listMax_cons_cons]
      by_cases hc : listMax (q :: rest) ≤ p
      · simp [hc, max_eq_left hc]
      · push_neg at hc
        rw [if_neg (not_le.mpr hc), List.getD_cons_succ, max_eq_right hc.le,
          getD_argmaxIdx (q :: rest) (by simp)]

/-- Reading back a list componentwise by index. -/
theorem range_map_getD : ∀ (l : List ℚ),
    (List.range l.length).map (fun i => l.getD i 0) = l := by
  intro l
  induction l with
  | nil => rfl
  | cons p ps ih =>
      rw [List.length_cons, List.range_succ_eq_map, List.map_cons,
        List.map_map]
      simp only [List.getD_cons_zero]
      congr 1

/-- For a classifier vector positionally aligned to `EMOTIONS`, the
values of the exposed `emotion_probabilities` dictionary are exactly the
classifier's vector. -/
theorem emotionProbs_snd (preds : Preds)
    (h : preds.length = EMOTIONS.length) :
    (emotionProbs preds).map Prod.snd = preds := by
  unfold emotionProbs
  rw [← h, List.map_map]
  calc (List.range preds.length).map
        (Prod.snd ∘ fun i => (EMOTIONS.getD i "", preds.getD i 0))
      = (List.range preds.length).map (fun i => preds.getD i 0) := rfl
    _ = preds := range_map_getD preds

/-! ### Lemmas about `classifyFaces`, `detect_emotion` and the route -/

theorem classifyFaces_relaxedRan (predict : FaceRegion → Preds)
    (faces : List FaceRegion) (rr : Bool) :
    (classifyFaces predict faces rr).2.relaxedRan = rr := by
  unfold classifyFaces
  dsimp only
  repeat' split
  all_goals rfl

theorem classifyFaces_usedRegions (predict : FaceRegion → Preds)
    (faces : List FaceRegion) (rr : Bool) :
    (classifyFaces predict faces rr).2.usedRegions = faces := by
  unfold classifyFaces
  dsimp only
  repeat' split
  all_goals rfl

/-- Inversion: a successful single-face outcome of `classifyFaces`
pins down every field of the reported face. -/
theorem classifyFaces_inv (predict : FaceRegion → Preds)
    (faces : List FaceRegion) (rr : Bool) (res : FaceResult)
    (l : List FaceResult) (m : String)
    (h : (classifyFaces predict faces rr).1 = .faces (res :: l) m) :
    ∃ f lab,
      (selectedFaces faces).head? = some f
      ∧ EMOTIONS.get? (argmaxIdx (predict f)) = some lab
      ∧ EMOTIONS.length ≤ (predict f).length
      ∧ l = []
      ∧ res = { face_location := f, emotion := lab,
                confidence := listMax (predict f),
                emotion_probabilities := emotionProbs (predict f) } := by
  unfold classifyFaces at h
  split at h
  · split at h
    · simp at h
    · rename_i f hf
      dsimp only at h
      split at h
      · simp at h
      · rename_i lab hlab
        split at h
        · simp at h
        · rename_i hlen
          simp only [DetectOutcome.faces.injEq, List.cons.injEq] at h
          obtain ⟨⟨hres, hl⟩, -⟩ := h
          exact ⟨f, lab, hf, hlab, by omega, hl.symm, hres.symm⟩
  · simp at h

theorem detect_emotion_strict (predict : FaceRegion → Preds) (g : Frame)
    (s r : Frame → List FaceRegion) (hs : s g ≠ []) :
    detect_emotion (some predict) (some g) s r
      = classifyFaces predict (s g) false := by
  unfold detect_emotion
  dsimp only
  rw [if_neg]
  simpa using hs

theorem detect_emotion_relaxed (predict : FaceRegion → Preds) (g : Frame)
    (s r : Frame → List FaceRegion) (hs : s g = []) (hr : r g ≠ []) :
    detect_emotion (some predict) (some g) s r
      = classifyFaces predict (r g) true := by
  unfold detect_emotion
  dsimp only
  rw [if_pos (by simpa using hs), if_neg (by simpa using hr)]

theorem detect_emotion_fallback (predict : FaceRegion → Preds) (g : Frame)
    (s r : Frame → List FaceRegion) (hs : s g = []) (hr : r g = []) :
    detect_emotion (some predict) (some g) s r
      = classifyFaces predict [fallbackRegion g.w g.h] true := by
  unfold detect_emotion
  dsimp only
  rw [if_pos (by simpa using hs), if_pos (by simpa using hr)]

/-- On a one-region list, an aligned classifier always yields the packaged
single-face success. -/
theorem classifyFaces_singleton (predict : FaceRegion → Preds)
    (f0 : FaceRegion) (rr : Bool)
    (h7 : (predict f0).length = EMOTIONS.length) :
    classifyFaces predict [f0] rr
      = (.faces [{ face_location := f0,
                   emotion := EMOTIONS.getD (argmaxIdx (predict f0)) "",
                   confidence := listMax (predict f0),
                   emotion_probabilities := emotionProbs (predict f0) }]
          "1 face(s) detected",
         ⟨rr, true, [f0]⟩) := by
  have hne : predict f0 ≠ [] := by
    intro hnil
    rw [hnil] at h7
    simp [EMOTIONS] at h7
  have hlt : argmaxIdx (predict f0) < EMOTIONS.length :=
    h7 ▸ argmaxIdx_lt _ hne
  simp [classifyFaces, selectedFaces, h7, List.getElem?_eq_getElem hlt]

/-- Inversion for a successful single-face outcome of `detect_emotion`. -/
theorem detect_faces_inv (c : Option (FaceRegion → Preds))
    (d : Option Frame) (s r : Frame → List FaceRegion) (res : FaceResult)
    (l : List FaceResult) (m : String)
    (h : (detect_emotion c d s r).1 = .faces (res :: l) m) :
    ∃ predict f lab, c = some predict
      ∧ EMOTIONS.get? (argmaxIdx (predict f)) = some lab
      ∧ EMOTIONS.length ≤ (predict f).length
      ∧ l = []
      ∧ res = { face_location := f, emotion := lab,
                confidence := listMax (predict f),
                emotion_probabilities := emotionProbs (predict f) } := by
  cases c with
  | none => simp [detect_emotion] at h
  | some predict =>
    cases d with
    | none => simp [detect_emotion] at h
    | some g =>
      by_cases hs : s g = []
      · by_cases hr : r g = []
        · rw [detect_emotion_fallback predict g s r hs hr] at h
          obtain ⟨f, lab, -, h2, h3, h4, h5⟩ := classifyFaces_inv _ _ _ _ _ _ h
          exact ⟨predict, f, lab, rfl, h2, h3, h4, h5⟩
        · rw [detect_emotion_relaxed predict g s r hs hr] at h
          obtain ⟨f, lab, -, h2, h3, h4, h5⟩ := classifyFaces_inv _ _ _ _ _ _ h
          exact ⟨predict, f, lab, rfl, h2, h3, h4, h5⟩
      · rw [detect_emotion_strict predict g s r hs] at h
        obtain ⟨f, lab, -, h2, h3, h4, h5⟩ := classifyFaces_inv _ _ _ _ _ _ h
        exact ⟨predict, f, lab, rfl, h2, h3, h4, h5⟩

/-- Under the shipped route, the best-effort history write never changes
the store and never reports success: the label either fails the
truthiness guard (`HAPPY` has `int` value `0`, unmapped labels give
`None`) or reaches the three-argument call of the two-parameter
`update_emotion`, whose `TypeError` is caught by the surrounding
`except`. -/
theorem routeHistoryWrite_noop (store : Store) (user_id : Option String)
    (emotion_name : String) (confidence : ℚ) (now : Nat) :
    routeHistoryWrite store user_id emotion_name confidence now
      = (store, false) := by
  unfold routeHistoryWrite
  cases user_id with
  | none => rfl
  | some uid =>
      dsimp only
      split
      · split
        · rfl
        · simp [call_update_emotion_3args, update_emotion_paramCount]
      · rfl

/-- With the classifier missing, every route call is the 500
`ClassifierUnavailable`-style failure. -/
theorem route_classifier_unavailable (decoded : Option Frame)
    (s r : Frame → List FaceRegion) (uid : Option String) (store : Store)
    (now : Nat) :
    detect_emotions_in_image none decoded s r uid store now
      = (.httpError 500 "Emotion detection model not loaded", store) := rfl

/-! ### Claim theorems -/

/-- C1, counterexample: on a decodable 300×300 frame where both detection
tiers return zero regions, the shipped pipeline does NOT yield the
`no_face` outcome: it classifies the synthesized center region and
returns the classifier's label `happy` with confidence 1, with the
classifier invoked. -/
theorem C1_counterexample :
    (detect_emotions_in_image (some (fun _ => [0,0,0,1,0,0,0])) (some ⟨300,300⟩)
        (fun _ => []) (fun _ => []) none [] 0).1
      = .ok "Emotion detected successfully" "happy" 1 false
    ∧ (detect_emotion (some (fun _ => [0,0,0,1,0,0,0])) (some ⟨300,300⟩)
        (fun _ => []) (fun _ => [])).2.classifyRan = true
    ∧ ("happy" : String) ≠ "no_face" ∧ (1 : ℚ) ≠ 0 := by decide

/-- C1, amended: for every decodable image on which both the strict and
the relaxed detection tier return zero face regions, the pipeline
synthesizes the center fallback region `(w/4, h/4, w/2, h/2)`, performs
classification on it, and returns that region with the classifier's
arg-max label and max-probability confidence; the `no_face` outcome is
not produced on this path. -/
theorem C1_amended_fallback_classified (predict : FaceRegion → Preds)
    (g : Frame) (s r : Frame → List FaceRegion)
    (hs : s g = []) (hr : r g = [])
    (h7 : (predict (fallbackRegion g.w g.h)).length = EMOTIONS.length) :
    detect_emotion (some predict) (some g) s r
      = (.faces [{ face_location := fallbackRegion g.w g.h,
                   emotion := EMOTIONS.getD
                     (argmaxIdx (predict (fallbackRegion g.w g.h))) "",
                   confidence := listMax (predict (fallbackRegion g.w g.h)),
                   emotion_probabilities :=
                     emotionProbs (predict (fallbackRegion g.w g.h)) }]
          "1 face(s) detected",
         ⟨true, true, [fallbackRegion g.w g.h]⟩) := by
  rw [detect_emotion_fallback predict g s r hs hr,
    classifyFaces_singleton predict _ true h7]

/-- C1, witness: the amended statement instantiated on a concrete
300×300 frame with empty detector tiers and a classifier certain on
`happy`. -/
theorem C1_witness :
    detect_emotion (some (fun _ => [0,0,0,1,0,0,0])) (some ⟨300,300⟩)
        (fun _ => []) (fun _ => [])
      = (.faces [{ face_location := fallbackRegion 300 300,
                   emotion := EMOTIONS.getD
                     (argmaxIdx ((fun _ => [0,0,0,1,0,0,0]) (fallbackRegion 300 300))) "",
                   confidence := listMax ((fun _ => [0,0,0,1,0,0,0]) (fallbackRegion 300 300)),
                   emotion_probabilities :=
                     emotionProbs ((fun _ => [0,0,0,1,0,0,0]) (fallbackRegion 300 300)) }]
          "1 face(s) detected",
         ⟨true, true, [fallbackRegion 300 300]⟩) :=
  C1_amended_fallback_classified (fun _ => [0,0,0,1,0,0,0]) ⟨300,300⟩
    (fun _ => []) (fun _ => []) rfl rfl rfl

/-- C2: the claim says the selected region maximizes `width * height`.
On the detector output `[(x=10,y=0,w=12,h=20), (x=0,y=0,w=11,h=20)]` the
first region has the larger area (240 vs 220), yet the pipeline selects
the second, because the source's sort key is `(w - x) * (h - y)`
(40 vs 220) rather than `w * h` — contradicting the code's own "sort
faces by size" comment. -/
theorem C2_selection_uses_wrong_key :
    (detect_emotion (some (fun _ => [0,0,0,1,0,0,0])) (some ⟨300,300⟩)
        (fun _ => [⟨10,0,12,20⟩, ⟨0,0,11,20⟩]) (fun _ => [])).1
      = .faces [{ face_location := ⟨0,0,11,20⟩, emotion := "happy",
                  confidence := 1,
                  emotion_probabilities := emotionProbs [0,0,0,1,0,0,0] }]
          "1 face(s) detected"
    ∧ area ⟨10,0,12,20⟩ = 240 ∧ area ⟨0,0,11,20⟩ = 220
    ∧ sortKey ⟨10,0,12,20⟩ = 40 ∧ sortKey ⟨0,0,11,20⟩ = 220 := by decide

/-- C3: the claim says a supplied identity with a mappable label appends
exactly one history entry and reports the update.  In the code the route
calls the two-parameter `update_emotion` with three arguments, so the
write raises `TypeError`, is swallowed by the route's `except`, and the
call reports `user_updated = false` with the store unchanged — even
though a correctly-arity call on the same store would have appended the
entry and returned `True`. -/
theorem C3_history_write_always_fails :
    (detect_emotions_in_image (some (fun _ => [0,0,0,0,1,0,0])) (some ⟨300,300⟩)
        (fun _ => [⟨10,10,50,50⟩]) (fun _ => []) (some "u1")
        [("u1", { currentEmotion := 4, updatedAt := 0,
                  emotionHistory := [⟨1,2⟩] })] 5)
      = (.ok "Emotion detected successfully" "sad" 1 false,
         [("u1", { currentEmotion := 4, updatedAt := 0,
                   emotionHistory := [⟨1,2⟩] })])
    ∧ update_emotion
        [("u1", { currentEmotion := 4, updatedAt := 0,
                  emotionHistory := [⟨1,2⟩] })] "u1" .SAD 5
      = ([("u1", { currentEmotion := 1, updatedAt := 5,
                   emotionHistory := [⟨1,2⟩, ⟨5,1⟩] })], true)
    ∧ ¬ 3 = update_emotion_paramCount := by decide

/-- C4: whenever the result carries a probability vector (positionally
aligned to the fixed label set, one entry per label), the reported
confidence equals the maximum component of that vector, the reported
label sits at the arg-max position of `EMOTIONS`, and the confidence is
the component at that arg-max position. -/
theorem C4_confidence_is_max_at_argmax (predict : FaceRegion → Preds)
    (decoded : Option Frame) (s r : Frame → List FaceRegion)
    (res : FaceResult) (l : List FaceResult) (m : String)
    (halign : ∀ reg, (predict reg).length = EMOTIONS.length)
    (h : (detect_emotion (some predict) decoded s r).1 = .faces (res :: l) m) :
    res.confidence = listMax (res.emotion_probabilities.map Prod.snd)
    ∧ res.emotion = EMOTIONS.getD
        (argmaxIdx (res.emotion_probabilities.map Prod.snd)) ""
    ∧ res.confidence
        = (res.emotion_probabilities.map Prod.snd).getD
            (argmaxIdx (res.emotion_probabilities.map Prod.snd)) 0 := by
  obtain ⟨predict2, f, lab, hc, hlab, hlen, -, hres⟩ :=
    detect_faces_inv _ _ _ _ _ _ _ h
  obtain rfl : predict = predict2 := Option.some.inj hc
  have hvals : res.emotion_probabilities.map Prod.snd = predict f := by
    rw [hres]
    exact emotionProbs_snd _ (halign f)
  have hne : predict f ≠ [] := by
    have hpos : 0 < (predict f).length :=
      lt_of_lt_of_le (by decide : 0 < EMOTIONS.length) hlen
    exact List.length_pos.mp hpos
  rw [List.get?_eq_getElem?] at hlab
  refine ⟨?_, ?_, ?_⟩
  · rw [hvals, hres]
  · rw [hvals, hres, List.getD_eq_getElem?_getD, hlab]
    rfl
  · rw [hvals, hres, getD_argmaxIdx _ hne]

/-- C4, witness: instantiated on a single detected region and the
classifier vector `predsHappy`. -/
theorem C4_witness :
    witFace.confidence = listMax (witFace.emotion_probabilities.map Prod.snd)
    ∧ witFace.emotion = EMOTIONS.getD
        (argmaxIdx (witFace.emotion_probabilities.map Prod.snd)) ""
    ∧ witFace.confidence
        = (witFace.emotion_probabilities.map Prod.snd).getD
            (argmaxIdx (witFace.emotion_probabilities.map Prod.snd)) 0 :=
  C4_confidence_is_max_at_argmax (fun _ => predsHappy) (some ⟨300, 300⟩)
    (fun _ => [⟨0, 0, 10, 10⟩]) (fun _ => []) witFace [] "1 face(s) detected"
    (fun _ => rfl) (by decide)

/-- C5: the relaxed tier runs if and only if the strict tier returned
zero regions, and the region list handed downstream is exactly the
output of the single tier that first produced a non-empty result —
tiers are never merged. -/
theorem C5_single_tier_policy (predict : FaceRegion → Preds) (g : Frame)
    (s r : Frame → List FaceRegion) :
    ((detect_emotion (some predict) (some g) s r).2.relaxedRan = true
       ↔ s g = [])
    ∧ (s g ≠ []
        → (detect_emotion (some predict) (some g) s r).2.usedRegions = s g)
    ∧ (s g = [] → r g ≠ []
        → (detect_emotion (some predict) (some g) s r).2.usedRegions = r g) := by
  by_cases hs : s g = []
  · by_cases hr : r g = []
    · rw [detect_emotion_fallback predict g s r hs hr]
      refine ⟨?_, fun hs2 => absurd hs hs2, fun _ hr2 => absurd hr hr2⟩
      simp [classifyFaces_relaxedRan, hs]
    · rw [detect_emotion_relaxed predict g s r hs hr]
      refine ⟨?_, fun hs2 => absurd hs hs2,
        fun _ _ => classifyFaces_usedRegions _ _ _⟩
      simp [classifyFaces_relaxedRan, hs]
  · rw [detect_emotion_strict predict g s r hs]
    refine ⟨?_, fun _ => classifyFaces_usedRegions _ _ _,
      fun hs2 _ => absurd hs2 hs⟩
    simp [classifyFaces_relaxedRan, hs]

/-- C5, witness: on a strict tier that finds one region, the relaxed tier
did not run and the strict output is used. -/
theorem C5_witness :
    ((detect_emotion (some (fun _ => predsHappy)) (some ⟨300, 300⟩)
        (fun _ => [⟨0, 0, 10, 10⟩]) (fun _ => [])).2.relaxedRan = true
       ↔ (fun _ => [(⟨0, 0, 10, 10⟩ : FaceRegion)]) (⟨300, 300⟩ : Frame) = [])
    ∧ ((fun _ => [(⟨0, 0, 10, 10⟩ : FaceRegion)]) (⟨300, 300⟩ : Frame) ≠ []
        → (detect_emotion (some (fun _ => predsHappy)) (some ⟨300, 300⟩)
            (fun _ => [⟨0, 0, 10, 10⟩]) (fun _ => [])).2.usedRegions
          = (fun _ => [(⟨0, 0, 10, 10⟩ : FaceRegion)]) (⟨300, 300⟩ : Frame))
    ∧ ((fun _ => [(⟨0, 0, 10, 10⟩ : FaceRegion)]) (⟨300, 300⟩ : Frame) = []
        → (fun _ => ([] : List FaceRegion)) (⟨300, 300⟩ : Frame) ≠ []
        → (detect_emotion (some (fun _ => predsHappy)) (some ⟨300, 300⟩)
            (fun _ => [⟨0, 0, 10, 10⟩]) (fun _ => [])).2.usedRegions
          = (fun _ => ([] : List FaceRegion)) (⟨300, 300⟩ : Frame)) :=
  C5_single_tier_policy (fun _ => predsHappy) ⟨300, 300⟩
    (fun _ => [⟨0, 0, 10, 10⟩]) (fun _ => [])

/-- C6: whenever inference succeeded with at least one face and an
identity was supplied, the call still returns the 200 success payload
with the computed emotion and confidence, the history-updated flag is
`false`, and the store is untouched — no history-write failure (and
under the shipped code every history write fails) ever converts the
successful inference into a failed call. -/
theorem C6_write_failure_never_fails_call (predict : FaceRegion → Preds)
    (decoded : Option Frame) (s r : Frame → List FaceRegion) (uid : String)
    (store : Store) (now : Nat) (res : FaceResult) (l : List FaceResult)
    (m : String)
    (h : (detect_emotion (some predict) decoded s r).1 = .faces (res :: l) m) :
    detect_emotions_in_image (some predict) decoded s r (some uid) store now
      = (.ok "Emotion detected successfully" res.emotion res.confidence false,
         store) := by
  unfold detect_emotions_in_image
  rw [h]
  dsimp only
  rw [routeHistoryWrite_noop]

/-- C6, witness: instantiated on a one-region strict tier and identity
`u1` over the empty store. -/
theorem C6_witness :
    detect_emotions_in_image (some (fun _ => predsHappy)) (some ⟨300, 300⟩)
        (fun _ => [⟨0, 0, 10, 10⟩]) (fun _ => []) (some "u1") [] 0
      = (.ok "Emotion detected successfully" witFace.emotion
          witFace.confidence false, []) :=
  C6_write_failure_never_fails_call (fun _ => predsHappy) (some ⟨300, 300⟩)
    (fun _ => [⟨0, 0, 10, 10⟩]) (fun _ => []) "u1" [] 0 witFace []
    "1 face(s) detected" (by decide)

/-- C7: if the classifier failed to load at process startup, every
subsequent call of the process returns the HTTP 500
`Emotion detection model not loaded` failure and the process state is
left unchanged — initialization is never re-attempted. -/
theorem C7_unavailable_for_process_life (st : ProcState)
    (inputs : List CallInput) (h : st.emotion_classifier = none) :
    (runRoute st inputs).1
      = inputs.map (fun _ => .httpError 500 "Emotion detection model not loaded")
    ∧ (runRoute st inputs).2 = st := by
  induction inputs with
  | nil => exact ⟨rfl, rfl⟩
  | cons inp rest ih =>
      have hcall : routeCall st inp
          = (.httpError 500 "Emotion detection model not loaded", st) := by
        unfold routeCall
        rw [h, route_classifier_unavailable]
      refine ⟨?_, ?_⟩
      · show (let (resp, st1) := routeCall st inp;
          let (resps, st2) := runRoute st1 rest;
          (resp :: resps, st2)).1 = _
        rw [hcall]
        simp only [List.map_cons]
        rw [ih.1]
      · show (let (resp, st1) := routeCall st inp;
          let (resps, st2) := runRoute st1 rest;
          (resp :: resps, st2)).2 = _
        rw [hcall]
        exact ih.2

/-- C7, witness: a one-request run against the unloaded-classifier
process state. -/
theorem C7_witness :
    ((runRoute procNoClassifier [witInput]).1
      = [witInput].map
          (fun _ => .httpError 500 "Emotion detection model not loaded"))
    ∧ (runRoute procNoClassifier [witInput]).2 = procNoClassifier :=
  C7_unavailable_for_process_life procNoClassifier [witInput] rfl

/-- C8, counterexample: the claim says a decode failure is surfaced as a
client error; the route surfaces `Failed to decode image` as HTTP 500,
which is not in the 4xx class. -/
theorem C8_counterexample :
    (detect_emotions_in_image (some (fun _ => [0,0,0,1,0,0,0])) none
        (fun _ => []) (fun _ => []) none [] 0).1
      = .httpError 500 "Failed to decode image"
    ∧ ¬ isClientError 500 := by decide

/-- C8, amended: for every request whose bytes do not form a decodable
raster image, the call fails with the decode error, surfaced to the
caller as a SERVER error (HTTP 500), and no classifier invocation
occurs. -/
theorem C8_amended_decode_error (predict : FaceRegion → Preds)
    (s r : Frame → List FaceRegion) (uid : Option String) (store : Store)
    (now : Nat) :
    detect_emotions_in_image (some predict) none s r uid store now
      = (.httpError 500 "Failed to decode image", store)
    ∧ (detect_emotion (some predict) none s r).2.classifyRan = false :=
  ⟨rfl, rfl⟩

/-- C9, counterexample: the claim bounds the exposed confidence by 1 for
every non-negative classifier vector; for the vector `[2,0,0,0,0,0,0]`
(all components non-negative) the response carries confidence 2 > 1 —
the code takes the raw maximum without clamping. -/
theorem C9_counterexample :
    (detect_emotions_in_image (some (fun _ => [2, 0, 0, 0, 0, 0, 0]))
        (some ⟨300, 300⟩) (fun _ => [⟨10, 10, 50, 50⟩]) (fun _ => [])
        none [] 0).1
      = .ok "Emotion detected successfully" "angry" 2 false
    ∧ (∀ p ∈ ([2, 0, 0, 0, 0, 0, 0] : List ℚ), 0 ≤ p)
    ∧ ¬ ((2 : ℚ) ≤ 1) := by decide

/-- C9, amended: whenever every component of every classifier vector lies
in `[0, 1]`, the confidence exposed in any 200 response lies in
`[0, 1]`; without the upper bound on the components only `0 ≤ conf`
survives, since the confidence is the raw maximum component. -/
theorem C9_amended_bounded_confidence (predict : FaceRegion → Preds)
    (decoded : Option Frame) (s r : Frame → List FaceRegion)
    (uid : Option String) (store : Store) (now : Nat)
    (msg emo : String) (conf : ℚ) (upd : Bool)
    (hbound : ∀ reg, ∀ p ∈ predict reg, 0 ≤ p ∧ p ≤ 1)
    (h : (detect_emotions_in_image (some predict) decoded s r uid store now).1
          = .ok msg emo conf upd) :
    0 ≤ conf ∧ conf ≤ 1 := by
  unfold detect_emotions_in_image at h
  rcases hdet : (detect_emotion (some predict) decoded s r).1 with msg2 | ⟨results, m2⟩
  · rw [hdet] at h
    simp at h
  · rw [hdet] at h
    cases results with
    | nil =>
        simp only [ApiResponse.ok.injEq] at h
        obtain ⟨-, -, hconf, -⟩ := h
        rw [← hconf]
        norm_num
    | cons res l =>
        dsimp only at h
        rw [routeHistoryWrite_noop] at h
        simp only [ApiResponse.ok.injEq] at h
        obtain ⟨-, -, hconf, -⟩ := h
        obtain ⟨predict2, f, lab, hc, hlab, hlen, -, hres⟩ :=
          detect_faces_inv _ _ _ _ _ _ _ hdet
        obtain rfl : predict = predict2 := Option.some.inj hc
        have hne : predict f ≠ [] :=
          List.length_pos.mp
            (lt_of_lt_of_le (by decide : 0 < EMOTIONS.length) hlen)
        have hmem := listMax_mem (predict f) hne
        have hb := hbound f _ hmem
        rw [← hconf, hres]
        exact hb

/-- C9, witness: the amended statement instantiated on `predsHappy`,
whose components all lie in `[0, 1]`; the exposed confidence is 1. -/
theorem C9_witness : (0:ℚ) ≤ 1 ∧ (1:ℚ) ≤ 1 := by
  have hb : ∀ reg : FaceRegion,
      ∀ p ∈ (fun _ : FaceRegion => predsHappy) reg, 0 ≤ p ∧ p ≤ 1 := by
    intro reg
    show ∀ p ∈ predsHappy, 0 ≤ p ∧ p ≤ 1
    decide
  exact C9_amended_bounded_confidence (fun _ => predsHappy) (some ⟨300, 300⟩)
    (fun _ => [⟨0, 0, 10, 10⟩]) (fun _ => []) none [] 0
    "Emotion detected successfully" "happy" 1 false hb (by decide)

/-- C10: for every grayscale frame of positive width `w` and positive
height `h`, the synthesized center fallback region
`(w/4, h/4, w/2, h/2)` (integer division) satisfies the `FaceRegion`
bounds invariant `x + width ≤ w` and `y + height ≤ h`, so the crop of
that region stays inside the frame. -/
theorem C10_fallback_region_within_frame (w h : Nat) (hw : 0 < w)
    (hh : 0 < h) :
    (fallbackRegion w h).x + (fallbackRegion w h).w ≤ w
    ∧ (fallbackRegion w h).y + (fallbackRegion w h).h ≤ h := by
  unfold fallbackRegion
  refine ⟨?_, ?_⟩ <;> dsimp only <;> omega

/-- C10, witness: the bounds invariant at the working frame size 300×300. -/
theorem C10_witness :
    0 < 300 ∧ 0 < 300
    ∧ ((fallbackRegion 300 300).x + (fallbackRegion 300 300).w ≤ 300
       ∧ (fallbackRegion 300 300).y + (fallbackRegion 300 300).h ≤ 300) :=
  ⟨by decide, by decide,
   C10_fallback_region_within_frame 300 300 (by decide) (by decide)⟩

end EmotionSense
